import Mathlib

/-!
Shallow embedding of `src/tracroute.rs` from the rust-traceroute repository.

The embedding models, faithfully to the Rust source:
* the constants `IPV4_HEADER_LEN`, `ICMP_HEADER_LEN`, `ICMP_PAYLOAD_LEN`, `MAX_TTL`;
* the `HopReply` struct (addresses as `Nat`, durations in nanoseconds as `Nat`,
  ICMP types by their pnet numeric code: EchoReply = 0, EchoRequest = 8, TimeExceeded = 11);
* `create_icmp_packet` (lines 37-66): the pnet IPv4 setters, with the 4-bit masking that
  `set_version`/`set_header_length` perform, and the ICMP echo-request byte buffer together
  with pnet's `util::checksum` (sum of big-endian 16-bit words skipping the word at index
  `skipword`, carry-folded, complemented);
* `process_reply` (lines 68-98) together with the outer 20-byte header strip of
  lines 144-145, with the panics of `.expect(...)` and of out-of-range slicing made
  explicit as a `panicked` outcome;
* the per-iteration receive-timeout computation of lines 134-139, where the two separate
  `timer_start.elapsed()` readings are two inputs `e1`, `e2`, and the panicking Rust
  `Duration` subtraction is made explicit;
* the per-TTL loop of lines 117-187: staleness filter (157-160), destination check (163),
  report branches (165-180), unconditional `ttl += 1` (182) and the final
  `ttl > MAX_TTL` notice (185-187).  The network is an oracle assigning to each TTL the
  list of `HopReply` values collected (in arrival order) during that TTL's window; the
  loop runs on fuel `MAX_TTL`, which is exact because the loop executes at most `MAX_TTL`
  iterations starting from `ttl = 1`.
-/

namespace Traceroute

/-- Constant from the source, line 23: `static IPV4_HEADER_LEN: u32 = 21;`. -/
def IPV4_HEADER_LEN : Nat := 21

/-- Constant from the source, line 24: `static ICMP_HEADER_LEN: u32 = 8;`. -/
def ICMP_HEADER_LEN : Nat := 8

/-- Constant from the source, line 25: `static ICMP_PAYLOAD_LEN: u32 = 32;`. -/
def ICMP_PAYLOAD_LEN : Nat := 32

/-- Constant from the source, line 26: `static MAX_TTL: usize = 64;`. -/
def MAX_TTL : Nat := 64

/-- pnet numeric code of `IcmpTypes::EchoReply`. -/
def echoReplyType : Nat := 0

/-- pnet numeric code of `IcmpTypes::EchoRequest`. -/
def echoRequestType : Nat := 8

/-- pnet numeric code of `IcmpTypes::TimeExceeded`. -/
def timeExceededType : Nat := 11

/-- The `HopReply` struct of lines 29-35. -/
structure HopReply where
  hop_addr : Nat
  reply_time : Nat
  reply_type : Nat
  sequence_number : Nat
deriving DecidableEq

/-- Sequence number assigned to probe `i` of TTL `ttl`, line 128:
`((ttl - 1) * requests_per_hop + i) as u16`.  The `as u16` cast is `% 65536`. -/
def seqOf (rph ttl i : Nat) : Nat := ((ttl - 1) * rph + i) % 65536

/-- Staleness-filter predicate of lines 157-160:
`(ttl - 1) * requests_per_hop <= sequence_number && sequence_number < ttl * requests_per_hop`. -/
def staleFilterKeep (ttl rph : Nat) (r : HopReply) : Bool :=
  decide ((ttl - 1) * rph ≤ r.sequence_number) && decide (r.sequence_number < ttl * rph)

/-- The surviving (post-filter) batch of a TTL iteration, lines 157-160:
`replies.into_iter().filter(..).collect()`. -/
def surviving (ttl rph : Nat) (collected : List HopReply) : List HopReply :=
  collected.filter (staleFilterKeep ttl rph)

/-- Destination check of line 163: `replies.iter().any(|reply| reply.reply_type == IcmpTypes::EchoReply)`. -/
def hasEchoReply (rs : List HopReply) : Bool :=
  rs.any (fun r => r.reply_type == echoReplyType)

/-- The `replies[0].hop_addr` access of lines 172 and 179 (only reached on a nonempty batch). -/
def firstAddr : List HopReply → Nat
  | [] => 0
  | r :: _ => r.hop_addr

/-- Average answer time of lines 176-177: fold of the reply durations divided by
`requests_per_hop` (Rust `Duration` division truncates at nanosecond resolution). -/
def meanReplyTime (rs : List HopReply) (rph : Nat) : Nat :=
  (rs.foldl (fun acc r => acc + r.reply_time) 0) / rph

/-- The three report-line shapes printed by lines 165-180. -/
inductive ReportLine where
  | allLost (ttl : Nat)
  | someLost (ttl : Nat) (addr : Nat)
  | allReceived (ttl : Nat) (addr : Nat) (avgTime : Nat)
deriving DecidableEq

/-- The report branch of lines 165-180.  The source is an `if / else if / else if` chain
with no final `else`: a batch larger than `requests_per_hop` prints nothing (`none`). -/
def reportLine (ttl rph : Nat) (replies : List HopReply) : Option ReportLine :=
  if replies.isEmpty then some (ReportLine.allLost ttl)
  else if replies.length < rph then some (ReportLine.someLost ttl (firstAddr replies))
  else if replies.length = rph then
    some (ReportLine.allReceived ttl (firstAddr replies) (meanReplyTime replies rph))
  else none

/-- Observable outcome of `run_traceroute`: the final value of `ttl`, the final value of
the `is_destionantion` flag (field name kept from the source), and the report lines in
the order printed. -/
structure RunOutcome where
  final_ttl : Nat
  is_destionantion : Bool
  lines : List ReportLine
deriving DecidableEq

/-- The `while !is_destionantion && ttl <= MAX_TTL` loop of lines 117-183, with the
receive loop abstracted into the oracle `oracle ttl` (the replies collected during TTL
`ttl`'s window, in arrival order).  The source binds the surviving batch once as
`replies`; here it is inlined at its three use sites.  Fuel `MAX_TTL` is exact for a
start at `ttl = 1`: when the fuel runs out, `ttl = MAX_TTL + 1` and the guard is false
anyway. -/
def runAux (oracle : Nat → List HopReply) (rph : Nat) :
    Nat → Nat → Bool → List ReportLine → RunOutcome
  | 0, ttl, isDest, acc => ⟨ttl, isDest, acc⟩
  | fuel + 1, ttl, isDest, acc =>
    if !isDest && decide (ttl ≤ MAX_TTL) then
      runAux oracle rph fuel (ttl + 1) (hasEchoReply (surviving ttl rph (oracle ttl)))
        (acc ++ (reportLine ttl rph (surviving ttl rph (oracle ttl))).toList)
    else ⟨ttl, isDest, acc⟩

/-- `run_traceroute` of lines 100-188, starting at `ttl = 1` with `is_destionantion = false`. -/
def run_traceroute (oracle : Nat → List HopReply) (rph : Nat) : RunOutcome :=
  runAux oracle rph MAX_TTL 1 false []

/-- Reason the run halted, in the vocabulary of the specification. -/
inductive HaltReason where
  | destinationReached
  | ttlExceeded
deriving DecidableEq

/-- The run halted with `DestinationReached` exactly when the `is_destionantion` flag is
set on exit; otherwise the TTL ceiling was exhausted. -/
def haltReason (out : RunOutcome) : HaltReason :=
  if out.is_destionantion then HaltReason.destinationReached else HaltReason.ttlExceeded

/-- The ceiling-exceeded notice of lines 185-187: printed iff `ttl > MAX_TTL` on exit. -/
def noticePrinted (out : RunOutcome) : Bool :=
  decide (MAX_TTL < out.final_ttl)

/-- Outcome of handling one inbound packet: `panicked` models Rust aborting the process
(a failed `.expect(...)` or an out-of-range slice); `ignored` models the silent `None`
for unrecognized ICMP types. -/
inductive ReplyOutcome where
  | panicked
  | ignored
  | reply (r : HopReply)
deriving DecidableEq

/-- `process_reply` of lines 68-98, over the ICMP-part bytes (the inbound packet after
the outer 20-byte IPv4 header strip).  For `TimeExceeded`, line 75 slices `[28..]`
(panics when fewer than 28 bytes) and `EchoRequestPacket::new(..).expect(..)` panics
when fewer than 8 bytes remain; the embedded echo request's big-endian sequence field
is then at offsets 34-35.  For `EchoReply`, `EchoReplyPacket::new(..).expect(..)`
panics when the buffer is shorter than 8 bytes; the sequence field is at offsets 6-7. -/
def process_reply (icmp : List Nat) (host : Nat) (duration : Nat) : ReplyOutcome :=
  if icmp.getD 0 0 = timeExceededType then
    if icmp.length < 28 then ReplyOutcome.panicked
    else if icmp.length < 36 then ReplyOutcome.panicked
    else ReplyOutcome.reply
      { hop_addr := host, reply_time := duration, reply_type := timeExceededType,
        sequence_number := icmp.getD 34 0 * 256 + icmp.getD 35 0 }
  else if icmp.getD 0 0 = echoReplyType then
    if icmp.length < 8 then ReplyOutcome.panicked
    else ReplyOutcome.reply
      { hop_addr := host, reply_time := duration, reply_type := echoReplyType,
        sequence_number := icmp.getD 6 0 * 256 + icmp.getD 7 0 }
  else ReplyOutcome.ignored

/-- The inbound-packet path of lines 144-149 feeding `process_reply`: slice the packet
at byte 20 (panics when the packet is shorter), build an `IcmpPacket` over the rest
(`.expect(..)` panics when fewer than 4 bytes remain), then classify. -/
def handleInbound (pkt : List Nat) (host : Nat) (elapsed : Nat) : ReplyOutcome :=
  if pkt.length < 20 then ReplyOutcome.panicked
  else if (pkt.drop 20).length < 4 then ReplyOutcome.panicked
  else process_reply (pkt.drop 20) host elapsed

/-- Decision taken by one pass through lines 134-139 of the receive loop. -/
inductive RecvStep where
  | stopCollect
  | panicked
  | recvWith (timeout : Nat)
deriving DecidableEq

/-- Lines 134-139, with durations in nanoseconds.  `timer_start.elapsed()` is called
twice: `e1` is the reading bound to `waiting_time` (line 135), `e2` the fresh reading
inside the subtraction of line 139 (on a monotone clock `e1 ≤ e2`).  The loop breaks
only when `e1` strictly exceeds the budget; otherwise Rust computes
`packet_time_sec - timer_start.elapsed()`, and `Duration` subtraction panics when
`e2` exceeds the budget. -/
def recvBudgetStep (budget e1 e2 : Nat) : RecvStep :=
  if budget < e1 then RecvStep.stopCollect
  else if budget < e2 then RecvStep.panicked
  else RecvStep.recvWith (budget - e2)

/-- Big-endian 16-bit words of a byte list, as pnet's `sum_be_words` forms them
(a trailing odd byte is handled separately by `oddTail`). -/
def bePairs : List Nat → List Nat
  | b1 :: b2 :: rest => (b1 * 256 + b2) :: bePairs rest
  | _ => []

/-- pnet `sum_be_words`: a trailing odd byte contributes its value shifted left 8. -/
def oddTail (data : List Nat) : Nat :=
  if data.length % 2 = 1 then (data.getLast?.getD 0) * 256 else 0

/-- Sum of a word list with the word at index `k` skipped; an index at or beyond the
end skips nothing, matching pnet's clamp `skipword = min(skipword, wdata.len())`. -/
def sumExcept : Nat → List Nat → Nat
  | _, [] => 0
  | 0, _ :: ws => ws.sum
  | k + 1, w :: ws => w + sumExcept k ws

/-- pnet `sum_be_words(data, skipword)`. -/
def sumBEWords (data : List Nat) (skipword : Nat) : Nat :=
  sumExcept skipword (bePairs data) + oddTail data

/-- The carry-folding loop of pnet `finalize_checksum`:
`while sum >> 16 != 0 { sum = (sum >> 16) + (sum & 0xFFFF); }`.  The first argument is
fuel; calling it with fuel `s` on input `s` always reaches the fixed point because the
folded value strictly decreases while it is at least 65536. -/
def foldCarryAux : Nat → Nat → Nat
  | 0, s => s
  | fuel + 1, s => if s < 65536 then s else foldCarryAux fuel (s / 65536 + s % 65536)

/-- pnet `finalize_checksum`: carry-fold, then complement as a `u16`. -/
def finalize_checksum (s : Nat) : Nat := 65535 - foldCarryAux s s

/-- pnet `util::checksum(data, skipword)`. -/
def checksum (data : List Nat) (skipword : Nat) : Nat :=
  finalize_checksum (sumBEWords data skipword)

/-- Standard validation of a checksummed packet: the one's-complement sum over all
words (no skip), finalized; a residual of 0 means the packet verifies. -/
def validateResidual (data : List Nat) : Nat :=
  finalize_checksum ((bePairs data).sum + oddTail data)

/-- The pnet writes of `set_icmp_type` on the echo-request buffer (byte 0, `u8`). -/
def set_icmp_type (buf : List Nat) (t : Nat) : List Nat := buf.set 0 (t % 256)

/-- The pnet writes of `set_sequence_number` (big-endian `u16` at bytes 6-7). -/
def set_sequence_number (buf : List Nat) (seq : Nat) : List Nat :=
  (buf.set 6 (seq / 256 % 256)).set 7 (seq % 256)

/-- The pnet writes of `set_checksum` (big-endian `u16` at bytes 2-3). -/
def set_checksum (buf : List Nat) (c : Nat) : List Nat :=
  (buf.set 2 (c / 256 % 256)).set 3 (c % 256)

/-- The ICMP side of `create_icmp_packet`, lines 54-62, on the caller's 40-byte
`buf_icmp`: set the type to EchoRequest (8), set the sequence number, compute
`checksum(&icmp_packet.packet_mut(), 1)` (skipword 1 = the checksum field), and write
it into bytes 2-3.  The code byte (1), identifier (4-5) and 32 payload bytes are never
written and keep whatever the buffer already held. -/
def compose_echo_request (buf_icmp : List Nat) (seq : Nat) : List Nat :=
  set_checksum (set_sequence_number (set_icmp_type buf_icmp 8) seq)
    (checksum (set_sequence_number (set_icmp_type buf_icmp 8) seq) 1)

/-- The IPv4 header fields written by lines 47-52.  pnet's generated setters mask
`version` and `header_length` to their 4-bit fields, `total_length` to 16 bits and
`ttl` to 8 bits; `IpNextHeaderProtocols::Icmp` is protocol 1. -/
structure Ipv4HeaderFields where
  version : Nat
  header_length : Nat
  total_length : Nat
  ttl : Nat
  protocol : Nat
  destination : Nat
deriving DecidableEq

/-- A composed outbound datagram: the IPv4 header fields and the ICMP payload bytes
installed by `set_payload` (line 63). -/
structure ComposedPacket where
  ip : Ipv4HeaderFields
  payload : List Nat
deriving DecidableEq

/-- `create_icmp_packet` of lines 37-66. -/
def create_icmp_packet (buf_icmp : List Nat) (dest ttl seq : Nat) : ComposedPacket :=
  { ip :=
      { version := 4 % 16
        header_length := IPV4_HEADER_LEN % 16
        total_length := (IPV4_HEADER_LEN + ICMP_HEADER_LEN + ICMP_PAYLOAD_LEN) % 65536
        ttl := ttl % 256
        protocol := 1
        destination := dest % 4294967296 }
    payload := compose_echo_request buf_icmp seq }

/-- A duplicated TimeExceeded reply with sequence number 2 (in range for TTL 1 when
`requests_per_hop = 5`), used to exhibit the over-full-batch report behavior. -/
def dupReply : HopReply :=
  { hop_addr := 7, reply_time := 4, reply_type := 11, sequence_number := 2 }

/-- An oracle under which the destination first answers (EchoReply, in-range sequence
number 315 = 63 * 5) exactly at TTL 64, the hop ceiling. -/
def echoAtCeiling : Nat → List HopReply := fun t =>
  if t = 64 then
    [{ hop_addr := 1, reply_time := 5, reply_type := 0, sequence_number := 315 }]
  else []

lemma head_filter_eq_find (p : HopReply → Bool) :
    ∀ l : List HopReply, (l.filter p).head? = l.find? p := by
  intro l
  induction l with
  | nil => rfl
  | cons a l ih =>
    by_cases h : p a
    · simp [List.filter_cons, List.find?_cons, h]
    · simp only [Bool.not_eq_true] at h
      simp [List.filter_cons, List.find?_cons, h, ih]

lemma firstAddr_eq_head (rs : List HopReply) :
    firstAddr rs = (rs.head?.map HopReply.hop_addr).getD 0 := by
  cases rs <;> rfl

/-- Claim C1: for every TTL `ttl ≥ 1` of the run, a collected `HopReply` survives into
the reported batch if and only if it was collected and its sequence number lies in the
half-open range `[(ttl - 1) * rph, ttl * rph)`; in particular a reply with an
out-of-range sequence number never appears in the reported batch. -/
theorem staleness_filter_mem (ttl rph : Nat) (h : 1 ≤ ttl)
    (collected : List HopReply) (r : HopReply) :
    r ∈ surviving ttl rph collected ↔
      r ∈ collected ∧ (ttl - 1) * rph ≤ r.sequence_number ∧
        r.sequence_number < ttl * rph := by
  simp [surviving, staleFilterKeep, List.mem_filter, and_assoc]

/-- Witness for C1: the filter at TTL 2, `requests_per_hop = 5`, on a singleton batch
whose reply has sequence number 7 in `[5, 10)`. -/
theorem staleness_filter_mem_witness :
    1 ≤ 2 ∧
      (({ hop_addr := 9, reply_time := 1, reply_type := 11, sequence_number := 7 } :
          HopReply) ∈
          surviving 2 5
            [{ hop_addr := 9, reply_time := 1, reply_type := 11, sequence_number := 7 }] ↔
        ({ hop_addr := 9, reply_time := 1, reply_type := 11, sequence_number := 7 } :
            HopReply) ∈
            [{ hop_addr := 9, reply_time := 1, reply_type := 11, sequence_number := 7 }] ∧
          (2 - 1) * 5 ≤ 7 ∧ 7 < 2 * 5) :=
  ⟨by decide, staleness_filter_mem 2 5 (by decide) _ _⟩

/-- Claim C10: the surviving batch preserves arrival order end to end: it is a sublist
of the collected list (same relative order), its head is the earliest-received
collected reply passing the staleness filter, and the address `replies[0].hop_addr`
the report prints is that earliest surviving reply's source address. -/
theorem batch_preserves_arrival_order (ttl rph : Nat) (collected : List HopReply) :
    (surviving ttl rph collected).Sublist collected ∧
    (surviving ttl rph collected).head? = collected.find? (staleFilterKeep ttl rph) ∧
    firstAddr (surviving ttl rph collected) =
      ((collected.find? (staleFilterKeep ttl rph)).map HopReply.hop_addr).getD 0 := by
  have h2 := head_filter_eq_find (staleFilterKeep ttl rph) collected
  refine ⟨List.filter_sublist collected, h2, ?_⟩
  rw [firstAddr_eq_head]
  rw [show (surviving ttl rph collected).head? =
        collected.find? (staleFilterKeep ttl rph) from h2]

/-- Claim C4 counterexample: with `requests_per_hop = 5`, six duplicate in-range
replies all survive the filter, and the report chain of lines 165-180 prints no line
at all for that TTL iteration, refuting "every TTL iteration produces exactly one
report line". -/
theorem report_policy_counterexample :
    surviving 1 5 (List.replicate 6 dupReply) = List.replicate 6 dupReply ∧
    reportLine 1 5 (List.replicate 6 dupReply) = none := by
  decide

/-- Claim C4 (amended): a TTL iteration's report line is determined by the number of
surviving replies as the claim states for batches of at most `requests_per_hop`
replies — zero replies give the fully-lost line, between 1 and `rph - 1` give the
first reply's address with timing unavailable, exactly `rph` (for positive `rph`) give
the first reply's address with the truncated arithmetic mean — but a batch of more
than `requests_per_hop` replies (possible only through duplicated sequence numbers)
produces no line. -/
theorem report_policy (ttl rph : Nat) (replies : List HopReply) :
    (replies.length = 0 → reportLine ttl rph replies = some (ReportLine.allLost ttl)) ∧
    (0 < replies.length → replies.length < rph →
      reportLine ttl rph replies = some (ReportLine.someLost ttl (firstAddr replies))) ∧
    (0 < rph → replies.length = rph →
      reportLine ttl rph replies =
        some (ReportLine.allReceived ttl (firstAddr replies) (meanReplyTime replies rph))) ∧
    (rph < replies.length → reportLine ttl rph replies = none) := by
  have hlen : replies.isEmpty = true ↔ replies.length = 0 := by
    cases replies <;> simp
  unfold reportLine
  refine ⟨fun h => ?_, fun h0 h1 => ?_, fun h0 h1 => ?_, fun h => ?_⟩
  · rw [if_pos (hlen.mpr h)]
  · rw [if_neg (fun hc => absurd (hlen.mp hc) (by omega)), if_pos h1]
  · rw [if_neg (fun hc => absurd (hlen.mp hc) (by omega)), if_neg (by omega), if_pos h1]
  · rw [if_neg (fun hc => absurd (hlen.mp hc) (by omega)), if_neg (by omega),
      if_neg (by omega)]

/-- Witness for C4 (amended): all four report branches evaluated at TTL 1 with
`requests_per_hop = 5` on concrete batches of 0, 1, 5 and 7 duplicate replies. -/
theorem report_policy_witness :
    reportLine 1 5 ([] : List HopReply) = some (ReportLine.allLost 1) ∧
    reportLine 1 5 [dupReply] = some (ReportLine.someLost 1 7) ∧
    reportLine 1 5 (List.replicate 5 dupReply) = some (ReportLine.allReceived 1 7 4) ∧
    reportLine 1 5 (List.replicate 7 dupReply) = none :=
  ⟨(report_policy 1 5 []).1 rfl,
    (report_policy 1 5 [dupReply]).2.1 (by decide) (by decide),
    (report_policy 1 5 (List.replicate 5 dupReply)).2.2.1 (by decide) (by decide),
    (report_policy 1 5 (List.replicate 7 dupReply)).2.2.2 (by decide)⟩

/-- Claim C5 (evaluation of the code bug): with a 1-second budget (in nanoseconds),
when the first elapsed reading equals the budget the loop does not stop — it issues
another receive with a zero timeout instead of treating remaining `≤ 0` as "stop
collecting now" — and when the second elapsed reading is one nanosecond past the
budget, the `Duration` subtraction of line 139 panics instead of clamping to zero. -/
theorem recv_timeout_bug :
    recvBudgetStep 1000000000 1000000000 1000000000 = RecvStep.recvWith 0 ∧
    recvBudgetStep 1000000000 1000000000 1000000001 = RecvStep.panicked := by
  decide

/-- Claim C6 (evaluation of the code bug): a 21-byte inbound packet (ICMP part shorter
than an ICMP header) and a 30-byte TimeExceeded packet (embedded echo request missing)
both make the engine panic — aborting the whole run — instead of being skipped. -/
theorem malformed_packet_panics :
    handleInbound (List.replicate 21 0) 9 5 = ReplyOutcome.panicked ∧
    handleInbound (List.replicate 20 0 ++ timeExceededType :: List.replicate 9 0) 9 5 =
      ReplyOutcome.panicked := by
  decide

/-- Claim C7 (evaluation of the code bug): for destination 8.8.8.8, TTL 1, sequence 0
(the fields do not depend on the input), the composed header has version 4, TTL,
protocol and destination as claimed, and its 4-bit header-length field holds
`21 % 16 = 5`, which is the actual 20-byte header length in 32-bit words; but the
total-length field holds `21 + 8 + 32 = 61`, one more than the actual header length
plus ICMP header plus payload, `20 + 8 + 32 = 60`. -/
theorem ipv4_header_fields_eval :
    (create_icmp_packet (List.replicate 40 0) 134744072 1 0).ip.version = 4 ∧
    (create_icmp_packet (List.replicate 40 0) 134744072 1 0).ip.header_length = 5 ∧
    4 * (create_icmp_packet (List.replicate 40 0) 134744072 1 0).ip.header_length = 20 ∧
    (create_icmp_packet (List.replicate 40 0) 134744072 1 0).ip.ttl = 1 ∧
    (create_icmp_packet (List.replicate 40 0) 134744072 1 0).ip.protocol = 1 ∧
    (create_icmp_packet (List.replicate 40 0) 134744072 1 0).ip.destination = 134744072 ∧
    (create_icmp_packet (List.replicate 40 0) 134744072 1 0).ip.total_length = 61 ∧
    4 * (create_icmp_packet (List.replicate 40 0) 134744072 1 0).ip.header_length +
      ICMP_HEADER_LEN + ICMP_PAYLOAD_LEN = 60 := by
  decide

/-- Claim C2: with a positive `requests_per_hop` and no 16-bit wraparound over the run
(`MAX_TTL * rph ≤ 65536`, which holds for the program's `rph = 5`), every probe of TTL
`t ∈ [1, MAX_TTL]` and index `i < rph` gets sequence number `(t-1)*rph + i`; the
originating TTL is recovered as `sequence / rph + 1`, and the sequence numbers are
unique across the whole run. -/
theorem probe_identity (rph t i u j : Nat) (hrph : 0 < rph)
    (hcap : MAX_TTL * rph ≤ 65536)
    (ht1 : 1 ≤ t) (ht2 : t ≤ MAX_TTL) (hi : i < rph)
    (hu1 : 1 ≤ u) (hu2 : u ≤ MAX_TTL) (hj : j < rph) :
    seqOf rph t i / rph + 1 = t ∧ (seqOf rph t i = seqOf rph u j → t = u ∧ i = j) := by
  have hlt : ∀ a b : Nat, 1 ≤ a → a ≤ MAX_TTL → b < rph → (a - 1) * rph + b < 65536 := by
    intro a b ha1 ha2 hb
    obtain ⟨c, rfl⟩ : ∃ c, a = c + 1 := ⟨a - 1, by omega⟩
    simp only [Nat.add_sub_cancel]
    calc c * rph + b < c * rph + rph := Nat.add_lt_add_left hb (c * rph)
      _ = (c + 1) * rph := (Nat.succ_mul c rph).symm
      _ ≤ MAX_TTL * rph := Nat.mul_le_mul_right rph ha2
      _ ≤ 65536 := hcap
  have hdiv : ∀ a b : Nat, 1 ≤ a → b < rph → ((a - 1) * rph + b) / rph + 1 = a := by
    intro a b ha hb
    rw [Nat.add_comm ((a - 1) * rph) b, Nat.add_mul_div_right b (a - 1) hrph,
      Nat.div_eq_of_lt hb]
    omega
  have hseqt : seqOf rph t i = (t - 1) * rph + i := Nat.mod_eq_of_lt (hlt t i ht1 ht2 hi)
  have hsequ : seqOf rph u j = (u - 1) * rph + j := Nat.mod_eq_of_lt (hlt u j hu1 hu2 hj)
  constructor
  · rw [hseqt]
    exact hdiv t i ht1 hi
  · intro heq
    rw [hseqt, hsequ] at heq
    have h1 := hdiv t i ht1 hi
    have h2 := hdiv u j hu1 hj
    rw [heq] at h1
    have htu : t = u := h1.symm.trans h2
    subst htu
    refine ⟨rfl, ?_⟩
    have h3 : (t - 1) * rph + i = (t - 1) * rph + j := heq
    exact Nat.add_left_cancel h3

/-- Witness for C2: `requests_per_hop = 5`, probes (TTL 3, index 2) and (TTL 4, index 1)
with sequence numbers 12 and 16. -/
theorem probe_identity_witness :
    seqOf 5 3 2 / 5 + 1 = 3 ∧ (seqOf 5 3 2 = seqOf 5 4 1 → 3 = 4 ∧ 2 = 1) :=
  probe_identity 5 3 2 4 1 (by decide) (by decide) (by decide) (by decide) (by decide)
    (by decide) (by decide) (by decide)

lemma runAux_dest_true (oracle : Nat → List HopReply) (rph : Nat) :
    ∀ fuel ttl acc, runAux oracle rph fuel ttl true acc = ⟨ttl, true, acc⟩ := by
  intro fuel ttl acc
  cases fuel <;> rfl

/-- Characterization of the loop of lines 117-183 from an arbitrary start: with the
fuel/ttl invariant `fuel + ttl = MAX_TTL + 1`, the run either finds a first TTL `t`
whose surviving batch holds an EchoReply — exiting with the flag set and final TTL
`t + 1` — or no TTL up to the ceiling ever does, and it exits with the flag unset and
final TTL `MAX_TTL + 1 = 65`. -/
lemma runAux_spec (oracle : Nat → List HopReply) (rph : Nat) :
    ∀ fuel ttl acc, fuel + ttl = 65 →
      ((runAux oracle rph fuel ttl false acc).is_destionantion = true ∧
        ∃ t, ttl ≤ t ∧ t ≤ 64 ∧ hasEchoReply (surviving t rph (oracle t)) = true ∧
          (∀ u, ttl ≤ u → u < t → hasEchoReply (surviving u rph (oracle u)) = false) ∧
          (runAux oracle rph fuel ttl false acc).final_ttl = t + 1) ∨
      ((runAux oracle rph fuel ttl false acc).is_destionantion = false ∧
        (runAux oracle rph fuel ttl false acc).final_ttl = 65 ∧
        ∀ u, ttl ≤ u → u ≤ 64 → hasEchoReply (surviving u rph (oracle u)) = false) := by
  intro fuel
  induction fuel with
  | zero =>
    intro ttl acc h
    right
    have h65 : ttl = 65 := by omega
    subst h65
    exact ⟨rfl, rfl, fun u hu h64 => by omega⟩
  | succ n ih =>
    intro ttl acc h
    have httl : ttl ≤ 64 := by omega
    have hstep : runAux oracle rph (n + 1) ttl false acc =
        runAux oracle rph n (ttl + 1) (hasEchoReply (surviving ttl rph (oracle ttl)))
          (acc ++ (reportLine ttl rph (surviving ttl rph (oracle ttl))).toList) := by
      have hmax : ttl ≤ MAX_TTL := httl
      simp only [runAux, Bool.not_false, Bool.true_and]
      rw [if_pos (decide_eq_true hmax)]
    rw [hstep]
    cases he : hasEchoReply (surviving ttl rph (oracle ttl)) with
    | true =>
      rw [runAux_dest_true]
      left
      exact ⟨rfl, ttl, Nat.le_refl ttl, httl, he, fun u hu1 hu2 => by omega, rfl⟩
    | false =>
      rcases ih (ttl + 1) (acc ++ (reportLine ttl rph (surviving ttl rph (oracle ttl))).toList)
          (by omega) with ⟨hd, t, h1, h2, h3, h4, h5⟩ | ⟨hd, h1, h2⟩
      · left
        refine ⟨hd, t, by omega, h2, h3, ?_, h5⟩
        intro u hu1 hu2
        rcases Nat.eq_or_lt_of_le hu1 with heq | hlt2
        · exact heq ▸ he
        · exact h4 u hlt2 hu2
      · right
        refine ⟨hd, h1, ?_⟩
        intro u hu1 hu2
        rcases Nat.eq_or_lt_of_le hu1 with heq | hlt2
        · exact heq ▸ he
        · exact h2 u hlt2 hu2

/-- Claim C3: every run terminates, and it halts with `DestinationReached` exactly when
some surviving reply of the TTL it stopped at is an EchoReply — namely at the first
such TTL `t ≤ 64, with final TTL `t + 1` — and otherwise it walks every TTL up to the
ceiling with no EchoReply and halts with `TtlExceeded` once the TTL exceeds 64. -/
theorem termination_state_machine (oracle : Nat → List HopReply) (rph : Nat) :
    (haltReason (run_traceroute oracle rph) = HaltReason.destinationReached ∧
      ∃ t, 1 ≤ t ∧ t ≤ MAX_TTL ∧ hasEchoReply (surviving t rph (oracle t)) = true ∧
        (∀ u, 1 ≤ u → u < t → hasEchoReply (surviving u rph (oracle u)) = false) ∧
        (run_traceroute oracle rph).final_ttl = t + 1) ∨
    (haltReason (run_traceroute oracle rph) = HaltReason.ttlExceeded ∧
      (run_traceroute oracle rph).final_ttl = MAX_TTL + 1 ∧
      ∀ u, 1 ≤ u → u ≤ MAX_TTL → hasEchoReply (surviving u rph (oracle u)) = false) := by
  have hspec := runAux_spec oracle rph 64 1 [] (by omega)
  unfold run_traceroute MAX_TTL
  rcases hspec with ⟨hd, t, h1, h2, h3, h4, h5⟩ | ⟨hd, h1, h2⟩
  · left
    refine ⟨?_, t, h1, h2, h3, h4, h5⟩
    simp [haltReason, hd]
  · right
    refine ⟨?_, h1, h2⟩
    simp [haltReason, hd]

/-- Claim C9 counterexample: under `echoAtCeiling` (destination first answers at TTL
64) with `requests_per_hop = 5`, the run halts with `DestinationReached`, yet the
final `ttl > MAX_TTL` check of line 185 still prints the ceiling-exceeded notice. -/
theorem notice_despite_destination :
    haltReason (run_traceroute echoAtCeiling 5) = HaltReason.destinationReached ∧
    noticePrinted (run_traceroute echoAtCeiling 5) = true := by
  decide

/-- Claim C9 (amended): the ceiling-exceeded notice is emitted iff the final TTL
exceeds MAX_TTL — that is, always when the run halts with `TtlExceeded`, and also in
the single `DestinationReached` case where the destination is first reached at TTL 64
(final TTL 65); it is absent exactly when the destination is reached at a TTL of at
most 63. -/
theorem notice_iff_ceiling (oracle : Nat → List HopReply) (rph : Nat) :
    noticePrinted (run_traceroute oracle rph) = true ↔
      (haltReason (run_traceroute oracle rph) = HaltReason.ttlExceeded ∨
        (run_traceroute oracle rph).final_ttl = MAX_TTL + 1) := by
  have hspec := runAux_spec oracle rph 64 1 [] (by omega)
  unfold run_traceroute noticePrinted haltReason MAX_TTL
  rcases hspec with ⟨hd, t, h1, h2, h3, h4, h5⟩ | ⟨hd, h1, h2⟩
  · simp [hd, h5]
    constructor
    · intro h6
      omega
    · intro h6
      omega
  · simp [hd, h1]

lemma bePairs_cons (b1 b2 : Nat) (rest : List Nat) :
    bePairs (b1 :: b2 :: rest) = (b1 * 256 + b2) :: bePairs rest := rfl

lemma sumExcept_one (w0 w1 : Nat) (ws : List Nat) :
    sumExcept 1 (w0 :: w1 :: ws) = w0 + ws.sum := rfl

/-- The carry-folding loop computes the value of its input modulo 65535, except that a
positive multiple of 65535 folds to 65535 itself (the loop stops as soon as the value
fits in 16 bits). -/
lemma foldCarryAux_spec : ∀ fuel s, s ≤ fuel →
    foldCarryAux fuel s = if s % 65535 = 0 ∧ 0 < s then 65535 else s % 65535 := by
  intro fuel
  induction fuel with
  | zero =>
    intro s hs
    have hz : s = 0 := by omega
    subst hz
    simp [foldCarryAux]
  | succ n ih =>
    intro s hs
    simp only [foldCarryAux]
    by_cases h1 : s < 65536
    · rw [if_pos h1]
      by_cases h2 : s % 65535 = 0 ∧ 0 < s
      · obtain ⟨h2a, h2b⟩ := h2
        rw [if_pos ⟨h2a, h2b⟩]
        omega
      · rw [if_neg h2]
        rcases Nat.eq_zero_or_pos s with h3 | h3
        · omega
        · have h4 : ¬s % 65535 = 0 := fun hc => h2 ⟨hc, h3⟩
          omega
    · rw [if_neg h1]
      rw [ih (s / 65536 + s % 65536) (by omega)]
      have hmod : (s / 65536 + s % 65536) % 65535 = s % 65535 := by omega
      have hpos : 0 < s / 65536 + s % 65536 := by omega
      have hcond : ((s / 65536 + s % 65536) % 65535 = 0 ∧ 0 < s / 65536 + s % 65536) ↔
          (s % 65535 = 0 ∧ 0 < s) := by
        constructor
        · rintro ⟨ha, -⟩
          exact ⟨by omega, by omega⟩
        · rintro ⟨ha, -⟩
          exact ⟨by omega, hpos⟩
      exact if_congr hcond rfl hmod

/-- Core of the checksum round trip: adding the complement of the folded sum back onto
the sum gives a positive multiple of 65535, which folds to 65535 and finalizes to a
zero residual. -/
lemma roundtrip_core (S : Nat) :
    finalize_checksum (S + (65535 - foldCarryAux S S)) = 0 := by
  have hspec := foldCarryAux_spec S S (Nat.le_refl S)
  have hfold : foldCarryAux S S ≤ 65535 ∧ foldCarryAux S S % 65535 = S % 65535 ∧
      (foldCarryAux S S = 65535 → 0 < S) := by
    by_cases h : S % 65535 = 0 ∧ 0 < S
    · rw [hspec, if_pos h]
      exact ⟨Nat.le_refl _, by omega, fun _ => h.2⟩
    · rw [hspec, if_neg h]
      exact ⟨by omega, by omega, fun hc => by omega⟩
  obtain ⟨hle, hmod, h65⟩ := hfold
  have hVmod : (S + (65535 - foldCarryAux S S)) % 65535 = 0 := by omega
  have hVpos : 0 < S + (65535 - foldCarryAux S S) := by
    rcases Nat.lt_or_ge (foldCarryAux S S) 65535 with h | h
    · omega
    · have := h65 (by omega)
      omega
  unfold finalize_checksum
  rw [foldCarryAux_spec _ _ (Nat.le_refl _), if_pos ⟨hVmod, hVpos⟩]

/-- Claim C8: for every 40-byte ICMP buffer (in whatever state earlier iterations left
it) and every sequence number, `create_icmp_packet` computes the checksum over the
whole ICMP header + payload with the standard one's-complement 16-bit algorithm,
skipping and then filling the checksum field, and re-validating the returned packet
with the standard algorithm yields a zero residual. -/
theorem checksum_roundtrip (buf_icmp : List Nat) (dest ttl seq : Nat)
    (h : buf_icmp.length = 40) :
    validateResidual (create_icmp_packet buf_icmp dest ttl seq).payload = 0 := by
  obtain ⟨b0, b1, b2, b3, b4, b5, b6, b7, l, rfl, hl⟩ :
      ∃ b0 b1 b2 b3 b4 b5 b6 b7 l, buf_icmp =
        b0 :: b1 :: b2 :: b3 :: b4 :: b5 :: b6 :: b7 :: l ∧ l.length = 32 := by
    rcases buf_icmp with _ | ⟨b0, t⟩
    · simp at h
    rcases t with _ | ⟨b1, t⟩
    · simp at h
    rcases t with _ | ⟨b2, t⟩
    · simp at h
    rcases t with _ | ⟨b3, t⟩
    · simp at h
    rcases t with _ | ⟨b4, t⟩
    · simp at h
    rcases t with _ | ⟨b5, t⟩
    · simp at h
    rcases t with _ | ⟨b6, t⟩
    · simp at h
    rcases t with _ | ⟨b7, t⟩
    · simp at h
    refine ⟨b0, b1, b2, b3, b4, b5, b6, b7, t, rfl, ?_⟩
    simp at h
    omega
  have hcompose : (create_icmp_packet
        (b0 :: b1 :: b2 :: b3 :: b4 :: b5 :: b6 :: b7 :: l) dest ttl seq).payload =
      8 :: b1 ::
        (checksum (8 :: b1 :: b2 :: b3 :: b4 :: b5 ::
            (seq / 256 % 256) :: (seq % 256) :: l) 1 / 256 % 256) ::
        (checksum (8 :: b1 :: b2 :: b3 :: b4 :: b5 ::
            (seq / 256 % 256) :: (seq % 256) :: l) 1 % 256) ::
        b4 :: b5 :: (seq / 256 % 256) :: (seq % 256) :: l := rfl
  rw [hcompose]
  set c := checksum (8 :: b1 :: b2 :: b3 :: b4 :: b5 ::
      (seq / 256 % 256) :: (seq % 256) :: l) 1 with hc
  have hoddb : oddTail (8 :: b1 :: b2 :: b3 :: b4 :: b5 ::
      (seq / 256 % 256) :: (seq % 256) :: l) = 0 := by
    simp [oddTail, hl]
  have hoddf : oddTail (8 :: b1 :: (c / 256 % 256) :: (c % 256) :: b4 :: b5 ::
      (seq / 256 % 256) :: (seq % 256) :: l) = 0 := by
    simp [oddTail, hl]
  set T := 8 * 256 + b1 + (b4 * 256 + b5) +
      (seq / 256 % 256 * 256 + seq % 256) + (bePairs l).sum with hT
  have hsum : sumBEWords (8 :: b1 :: b2 :: b3 :: b4 :: b5 ::
      (seq / 256 % 256) :: (seq % 256) :: l) 1 = T := by
    unfold sumBEWords
    rw [bePairs_cons, bePairs_cons, bePairs_cons, bePairs_cons, sumExcept_one, hoddb]
    simp only [List.sum_cons]
    omega
  have hc2 : c = 65535 - foldCarryAux T T := by
    rw [hc]
    unfold checksum finalize_checksum
    rw [hsum]
  unfold validateResidual
  rw [bePairs_cons, bePairs_cons, bePairs_cons, bePairs_cons, hoddf]
  simp only [List.sum_cons]
  rw [show (8 * 256 + b1 + (c / 256 % 256 * 256 + c % 256 + (b4 * 256 + b5 +
        (seq / 256 % 256 * 256 + seq % 256 + (bePairs l).sum))) + 0 : Nat) =
      T + (65535 - foldCarryAux T T) from by omega]
  exact roundtrip_core T

/-- Witness for C8: the program's zero-initialized 40-byte buffer, destination 8.8.8.8,
TTL 3, sequence number 300; the composed packet re-validates to residual 0. -/
theorem checksum_roundtrip_witness :
    validateResidual (create_icmp_packet (List.replicate 40 0) 134744072 3 300).payload = 0 :=
  checksum_roundtrip (List.replicate 40 0) 134744072 3 300 (by decide)

end Traceroute
